import Mathlib

/-!
Shallow embedding of the core of the `satmihir/fair` fairness-tracker library
(Go), covering the packages `pkg/config`, `pkg/data`, `pkg/request` and
`pkg/tracker`.

Modelling conventions:
* Go `float64` values are modelled as real numbers (`ℝ`); the transcendental
  functions `math.Exp`, `math.Log`, `math.Pow` become `Real.exp`, `Real.log`
  and real powers.
* Go `uint32` / `uint64` arithmetic is modelled on `ℕ` with explicit reduction
  modulo `2^32` / `2^64` exactly where Go wraps.
* The MurmurHash3 64-bit digest comes from the external library
  `github.com/spaolacci/murmur3`, which is not part of this repository; it is
  modelled as an abstract function parameter `murmur64 : List ℕ → ℕ → ℕ`
  (identifier bytes, seed ↦ 64-bit digest).  All theorems hold for an
  arbitrary such function.
* The per-bucket mutex and the rotation RWMutex serialize operations; the
  sequential model below represents any interleaving of completed operations.
* The clock is passed explicitly: each operation receives the millisecond
  timestamp `now` it observes (`clock.Now().UnixMilli()`).
-/

namespace Fair

/-- Wrapping 32-bit reduction: the effect of a Go `uint32` conversion or of
`uint32` arithmetic overflow. -/
def wrap32 (n : ℕ) : ℕ := n % 2 ^ 32

/-- Go `uint64` subtraction `a - b`: wraps modulo `2^64` when `a < b`.
This is the arithmetic used for `deltaT := cur - buck.lastUpdatedTimeMillis`
in `Structure.visitBuckets` (pkg/data/data.go). -/
def wsub64 (a b : ℕ) : ℕ := (2 ^ 64 + a % 2 ^ 64 - b % 2 ^ 64) % 2 ^ 64

/-- pkg/request/type.go: `type Outcome int`; `OutcomeSuccess Outcome = iota`,
so Success is the integer 0. -/
def OutcomeSuccess : ℤ := 0

/-- pkg/request/type.go: `OutcomeFailure` is the integer 1. -/
def OutcomeFailure : ℤ := 1

/-- pkg/config/types.go: `FairnessTrackerConfig`.  `RotationFrequency` is a Go
`time.Duration`; we record it in milliseconds. -/
structure FairnessTrackerConfig where
  M : ℕ
  L : ℕ
  Pi : ℝ
  Pd : ℝ
  Lambda : ℝ
  RotationFrequencyMs : ℕ
  IncludeStats : Bool
  FinalProbabilityFunction : List ℝ → ℝ

/-- pkg/config/tuning.go `MinFinalProbabilityFunction`: starts from
`minVal = 1` and folds `math.Min` over the slice.  (On an empty slice the Go
code terminates the process via the fatal logger; the fold then returns the
initial value 1, a case no caller reaches since `L ≥ 1`.) -/
noncomputable def MinFinalProbabilityFunction (buckets : List ℝ) : ℝ :=
  buckets.foldl min 1

/-- pkg/config/tuning.go `MeanFinalProbabilityFunction`: sum divided by
length. -/
noncomputable def MeanFinalProbabilityFunction (buckets : List ℝ) : ℝ :=
  buckets.sum / buckets.length

/-- pkg/data/data.go `validateStructureConfig`: the conjunction of the checks
(as the proposition "validation returns nil").  The function rejects when
`L ≤ 0 || M ≤ 0`, when `Pd ≤ 0 || Pi ≤ 0`, when `Pd > 1 || Pi >= 1`, or when
`Pi <= Pd`.  Note that `Lambda` is NOT validated. -/
def ValidStructureConfig (c : FairnessTrackerConfig) : Prop :=
  1 ≤ c.L ∧ 1 ≤ c.M ∧ 0 < c.Pd ∧ 0 < c.Pi ∧ c.Pd ≤ 1 ∧ c.Pi < 1 ∧ c.Pd < c.Pi

/-- pkg/config/tuning.go `CalculateL`:
`term := 1 - math.Pow(1-1/float64(B), float64(M))`,
`L := math.Log(p) / math.Log(term)`, returned as `uint32(math.Ceil(L))`.
The Go float-to-uint32 conversion is unspecified for out-of-range values; we
model the in-range behaviour, `Int.toNat` of the integer ceiling. -/
noncomputable def CalculateL (B M : ℕ) (p : ℝ) : ℕ :=
  let term : ℝ := 1 - (1 - 1 / (B : ℝ)) ^ (M : ℕ)
  (⌈Real.log p / Real.log term⌉).toNat

/-- pkg/config/tuning.go constants used by the auto-tuner. -/
def defaultTolerableBadRequestsPerBadFlow : ℕ := 25

/-- pkg/config/tuning.go `percentBadClientFlows = 0.001`. -/
noncomputable def percentBadClientFlows : ℝ := 0.001

/-- pkg/config/tuning.go `lowProbability = 0.0001`. -/
noncomputable def lowProbability : ℝ := 0.0001

/-- pkg/config/tuning.go `pdSlowingFactor = 0.001`. -/
noncomputable def pdSlowingFactor : ℝ := 0.001

/-- pkg/config/tuning.go `defaultDecayRate = 0.01`. -/
noncomputable def defaultDecayRate : ℝ := 0.01

/-- pkg/config/tuning.go `defaultRotationDuration = time.Minute * 5`,
in milliseconds. -/
def defaultRotationDurationMs : ℕ := 5 * 60 * 1000

/-- pkg/config/tuning.go `minL = 3`. -/
def minL : ℕ := 3

/-- pkg/config/tuning.go `GenerateTunedStructureConfig`.  The function takes
`(expectedClientFlows, bucketsPerLevel, tolerableBadRequestsPerBadFlow)` as
`uint32` and returns a config; it has no error return.  When the caller
passes `tolerableBadRequestsPerBadFlow = 0` it logs a warning and replaces it
by the default 25 before computing `Pi`.  `M := uint32(ceil(N * 0.001))` is
the estimated number of bad flows fed to `CalculateL`; the config's `M` field
is the `bucketsPerLevel` passthrough. -/
noncomputable def GenerateTunedStructureConfig
    (expectedClientFlows bucketsPerLevel tolerableBadRequestsPerBadFlow : ℕ) :
    FairnessTrackerConfig :=
  let T : ℕ :=
    if tolerableBadRequestsPerBadFlow = 0 then
      defaultTolerableBadRequestsPerBadFlow
    else tolerableBadRequestsPerBadFlow
  let Mbad : ℕ := (⌈(expectedClientFlows : ℝ) * percentBadClientFlows⌉).toNat
  let L0 : ℕ := CalculateL bucketsPerLevel Mbad lowProbability
  let L : ℕ := if L0 < minL then minL else L0
  let Pi : ℝ := 1 / (T : ℝ)
  let Pd : ℝ := pdSlowingFactor * Pi
  { M := bucketsPerLevel
    L := L
    Pi := Pi
    Pd := Pd
    Lambda := defaultDecayRate
    RotationFrequencyMs := defaultRotationDurationMs
    IncludeStats := false
    FinalProbabilityFunction := MinFinalProbabilityFunction }

/-- pkg/data/data.go `bucket`: a probability together with the timestamp of
the last update (the mutex is a concurrency artifact and is not part of the
sequential state). -/
structure Bucket where
  probability : ℝ
  lastUpdatedTimeMillis : ℕ

/-- pkg/data/data.go `Structure`: the `L × M` matrix of buckets plus config,
structure id and the murmur seed.  The `levels` field is total over `ℕ × ℕ`;
only indices with `l < config.L` and `m < config.M` are ever accessed. -/
structure Structure where
  levels : ℕ → ℕ → Bucket
  config : FairnessTrackerConfig
  id : ℕ
  murmurSeed : ℕ

/-- pkg/data/data.go `newBucket`: probability 0, stamp from the clock. -/
def newBucket (nowMs : ℕ) : Bucket :=
  { probability := 0, lastUpdatedTimeMillis := nowMs }

/-- pkg/data/data.go `NewStructureWithClock`, successful path: all `L × M`
buckets zero-initialized with the construction-time stamp; the seed is drawn
from `rand.Uint32()` and passed here explicitly.  (The function returns an
error exactly when `ValidStructureConfig` fails; theorems carry that
hypothesis where the claim assumes a validly constructed structure.) -/
def NewStructureWithClock (cfg : FairnessTrackerConfig) (id seed nowMs : ℕ) :
    Structure :=
  { levels := fun _ _ => newBucket nowMs
    config := cfg
    id := id
    murmurSeed := seed }

/-- pkg/data/data.go `adjustProbability`: exponential decay
`prob * exp(-lambda * deltaMs/1000)`, floored at 0. -/
noncomputable def adjustProbability (prob lambda : ℝ) (deltaMs : ℕ) : ℝ :=
  let deltaSec : ℝ := (deltaMs : ℝ) / 1000
  let decayedProb : ℝ := prob * Real.exp (-(lambda * deltaSec))
  if decayedProb < 0 then 0 else decayedProb

/-- pkg/data/data.go `generateNHashesUsing64Bit`, after the murmur digest
`hash64` has been computed: `hash1 = uint32(hash64)` (low 32 bits),
`hash2 = uint32(hash64 >> 32)` (high 32 bits), and
`hashes[i] = hash1 + uint32(i)*hash2` in wrapping `uint32` arithmetic. -/
def generateNHashesUsing64Bit (hash64 : ℕ) (n : ℕ) : List ℕ :=
  let hash1 : ℕ := hash64 % 2 ^ 32
  let hash2 : ℕ := hash64 / 2 ^ 32 % 2 ^ 32
  (List.range n).map fun i => wrap32 (hash1 + wrap32 (wrap32 i * hash2))

variable (murmur64 : List ℕ → ℕ → ℕ)

/-- The column selected at level `l` for a client identifier:
`levelHashes[l] % s.config.M` in `Structure.visitBuckets`. -/
def levelIndex (s : Structure) (clientIdentifier : List ℕ) (l : ℕ) : ℕ :=
  (generateNHashesUsing64Bit (murmur64 clientIdentifier s.murmurSeed)
      s.config.L).getD l 0 % s.config.M

/-- The decay-on-visit step of `Structure.visitBuckets`: compute
`deltaT := cur - lastUpdated` in `uint64` arithmetic, decay the probability,
and stamp the bucket with the current time. -/
noncomputable def touchBucket (lambda : ℝ) (nowMs : ℕ) (b : Bucket) : Bucket :=
  let deltaT : ℕ := wsub64 nowMs b.lastUpdatedTimeMillis
  { probability := adjustProbability b.probability lambda deltaT
    lastUpdatedTimeMillis := nowMs }

/-- pkg/data/data.go `Structure.visitBuckets`: for each level `l < L`, the
bucket in column `levelHashes[l] % M` is decayed and stamped, then handed to
the handler `fn`; all other buckets are untouched.  The `L` visited buckets
lie in distinct rows, so the per-level updates are independent. -/
noncomputable def visitBuckets (s : Structure) (clientIdentifier : List ℕ)
    (nowMs : ℕ) (fn : Bucket → Bucket) : Structure :=
  { s with
    levels := fun l m =>
      if l < s.config.L ∧ m = levelIndex murmur64 s clientIdentifier l then
        fn (touchBucket s.config.Lambda nowMs (s.levels l m))
      else s.levels l m }

/-- The decayed per-level probabilities read by
`Structure.RegisterRequest`'s visit handler into `bucketProbabilities`. -/
noncomputable def bucketProbabilities (s : Structure)
    (clientIdentifier : List ℕ) (nowMs : ℕ) : List ℝ :=
  (List.range s.config.L).map fun l =>
    (touchBucket s.config.Lambda nowMs
        (s.levels l (levelIndex murmur64 s clientIdentifier l))).probability

/-- pkg/data/data.go `Structure.RegisterRequest`: visit the buckets (the
handler only reads), combine the decayed probabilities with
`config.FinalProbabilityFunction`, and throttle iff the uniform draw
`r = rand.Float64()` satisfies `r <= pFinal`.  Returns the decision together
with the post-visit structure. -/
noncomputable def RegisterRequest (s : Structure) (clientIdentifier : List ℕ)
    (nowMs : ℕ) (r : ℝ) : Bool × Structure :=
  let pFinal : ℝ :=
    s.config.FinalProbabilityFunction
      (bucketProbabilities murmur64 s clientIdentifier nowMs)
  let shouldThrottle : Bool := if r ≤ pFinal then true else false
  (shouldThrottle, visitBuckets murmur64 s clientIdentifier nowMs id)

/-- pkg/data/data.go `Structure.ReportOutcome` handler body: add the
adjustment, then floor at 0, then cap at 1, and stamp. -/
noncomputable def reportFn (adjustment : ℝ) (nowMs : ℕ) (b : Bucket) : Bucket :=
  let p : ℝ := b.probability + adjustment
  let p1 : ℝ := if p < 0 then 0 else p
  let p2 : ℝ := if p1 > 1 then 1 else p1
  { probability := p2, lastUpdatedTimeMillis := nowMs }

/-- pkg/data/data.go `Structure.ReportOutcome`: `adjustment := config.Pi`,
overwritten with `-1 * config.Pd` exactly when `outcome == OutcomeSuccess`;
then every visited bucket gets the clamped adjusted probability. -/
noncomputable def ReportOutcome (s : Structure) (clientIdentifier : List ℕ)
    (nowMs : ℕ) (outcome : ℤ) : Structure :=
  let adjustment : ℝ :=
    if outcome = OutcomeSuccess then -1 * s.config.Pd else s.config.Pi
  visitBuckets murmur64 s clientIdentifier nowMs (reportFn adjustment nowMs)

/-- pkg/tracker/tracker.go `FairnessTracker`: the two structures, the id
counter, and the lifecycle flags.  `stopClosed` records whether the
`stopRotation` channel has been closed; `tickerStopped` whether
`ticker.Stop()` has run.  (The rotation goroutine, RWMutex and channel are
concurrency plumbing; rotation ticks are modelled as explicit steps.) -/
structure FairnessTracker where
  trackerConfig : FairnessTrackerConfig
  structureIDCounter : ℕ
  mainStructure : Structure
  secondaryStructure : Structure
  stopClosed : Bool
  tickerStopped : Bool

/-- pkg/tracker/tracker.go `NewFairnessTrackerWithClockAndTicker`, successful
path: structures with ids 1 and 2 (independently drawn seeds `seed1`,
`seed2`), counter starting at 3.  Construction errors exactly when
`ValidStructureConfig` fails; theorems carry that hypothesis where needed. -/
def NewFairnessTrackerWithClockAndTicker (cfg : FairnessTrackerConfig)
    (seed1 seed2 nowMs : ℕ) : FairnessTracker :=
  { trackerConfig := cfg
    structureIDCounter := 3
    mainStructure := NewStructureWithClock cfg 1 seed1 nowMs
    secondaryStructure := NewStructureWithClock cfg 2 seed2 nowMs
    stopClosed := false
    tickerStopped := false }

/-- One tick of the rotation goroutine in
`NewFairnessTrackerWithClockAndTicker`: build a fresh structure with
`id = structureIDCounter` and a fresh seed, increment the counter, then under
the write lock set `mainStructure := secondaryStructure` and
`secondaryStructure := s`. -/
def rotateTick (ft : FairnessTracker) (freshSeed nowMs : ℕ) : FairnessTracker :=
  let s : Structure :=
    NewStructureWithClock ft.trackerConfig ft.structureIDCounter freshSeed nowMs
  { ft with
    structureIDCounter := ft.structureIDCounter + 1
    mainStructure := ft.secondaryStructure
    secondaryStructure := s }

/-- A sequence of rotation ticks, each with its fresh seed and clock time. -/
def applyRotations (ft : FairnessTracker) : List (ℕ × ℕ) → FairnessTracker
  | [] => ft
  | t :: ts => applyRotations (rotateTick ft t.1 t.2) ts

/-- pkg/tracker/tracker.go `FairnessTracker.RegisterRequest`: under the read
side of the rotation lock, register on the main structure (producing the
response) and on the secondary structure (keeping its buckets warm; its
decision — drawn with an independent `r`, which does not affect state — is
discarded). -/
noncomputable def TrackerRegisterRequest (ft : FairnessTracker)
    (clientIdentifier : List ℕ) (nowMs : ℕ) (r : ℝ) :
    Bool × FairnessTracker :=
  let resp := RegisterRequest murmur64 ft.mainStructure clientIdentifier nowMs r
  let sec := RegisterRequest murmur64 ft.secondaryStructure clientIdentifier nowMs r
  (resp.1, { ft with mainStructure := resp.2, secondaryStructure := sec.2 })

/-- pkg/tracker/tracker.go `FairnessTracker.ReportOutcome`: report on both
structures. -/
noncomputable def TrackerReportOutcome (ft : FairnessTracker)
    (clientIdentifier : List ℕ) (nowMs : ℕ) (outcome : ℤ) : FairnessTracker :=
  { ft with
    mainStructure :=
      ReportOutcome murmur64 ft.mainStructure clientIdentifier nowMs outcome
    secondaryStructure :=
      ReportOutcome murmur64 ft.secondaryStructure clientIdentifier nowMs outcome }

/-- pkg/tracker/tracker.go `FairnessTracker.Close`:
`close(ft.stopRotation); ft.ticker.Stop()`.  In Go, `close` of an
already-closed channel panics with the runtime message
"close of closed channel"; the model returns that panic as an error. -/
def CloseTracker (ft : FairnessTracker) : Except String FairnessTracker :=
  if ft.stopClosed then Except.error "close of closed channel"
  else Except.ok { ft with stopClosed := true, tickerStopped := true }

/-- A completed hot-path operation: a registration (with the uniform draw `r`
it consumed) or an outcome report, each with the clock value it observed. -/
inductive Op where
  | register (clientIdentifier : List ℕ) (nowMs : ℕ) (r : ℝ)
  | report (clientIdentifier : List ℕ) (nowMs : ℕ) (outcome : ℤ)

/-- The clock value observed by an operation. -/
def Op.nowMs : Op → ℕ
  | .register _ n _ => n
  | .report _ n _ => n

/-- Effect of one completed hot-path operation on the tracker state. -/
noncomputable def applyOp (ft : FairnessTracker) : Op → FairnessTracker
  | .register cid n r => (TrackerRegisterRequest murmur64 ft cid n r).2
  | .report cid n o => TrackerReportOutcome murmur64 ft cid n o

/-- Effect of a sequence of completed hot-path operations. -/
noncomputable def applyOps (ft : FairnessTracker) : List Op → FairnessTracker
  | [] => ft
  | op :: ops => applyOps (applyOp murmur64 ft op) ops

/-! Helper definitions used by witnesses and counterexamples. -/

/-- A trivial stand-in for the abstract murmur digest, used to instantiate
theorems on concrete inputs. -/
def murmurZero : List ℕ → ℕ → ℕ := fun _ _ => 0

/-- The calibration configuration of spec scenario A:
`L=2, M=24, Pd=0.1, Pi=0.15, lambda=0`, min combiner. -/
noncomputable def sampleConfig : FairnessTrackerConfig :=
  { M := 24
    L := 2
    Pi := 0.15
    Pd := 0.1
    Lambda := 0
    RotationFrequencyMs := 1000
    IncludeStats := false
    FinalProbabilityFunction := MinFinalProbabilityFunction }

theorem sampleConfig_valid : ValidStructureConfig sampleConfig := by
  refine ⟨?_, ?_, ?_, ?_, ?_, ?_, ?_⟩ <;> norm_num [sampleConfig]

/-! Helper lemmas about the model. -/

theorem adjustProbability_nonneg (prob lambda : ℝ) (deltaMs : ℕ) :
    0 ≤ adjustProbability prob lambda deltaMs := by
  unfold adjustProbability
  dsimp only
  split_ifs with h
  · exact le_refl 0
  · exact le_of_not_lt h

theorem adjustProbability_le_one {prob lambda : ℝ} (deltaMs : ℕ)
    (hp0 : 0 ≤ prob) (hp1 : prob ≤ 1) (hl : 0 ≤ lambda) :
    adjustProbability prob lambda deltaMs ≤ 1 := by
  unfold adjustProbability
  dsimp only
  split_ifs with h
  · norm_num
  · have hd : 0 ≤ lambda * ((deltaMs : ℝ) / 1000) := by positivity
    have hexp : Real.exp (-(lambda * ((deltaMs : ℝ) / 1000))) ≤ 1 :=
      Real.exp_le_one_iff.mpr (by linarith)
    calc prob * Real.exp (-(lambda * ((deltaMs : ℝ) / 1000)))
        ≤ prob * 1 := mul_le_mul_of_nonneg_left hexp hp0
      _ ≤ 1 := by linarith

theorem reportFn_eq (adjustment : ℝ) (nowMs : ℕ) (b : Bucket) :
    reportFn adjustment nowMs b
      = { probability := min 1 (max 0 (b.probability + adjustment))
          lastUpdatedTimeMillis := nowMs } := by
  unfold reportFn
  dsimp only
  split_ifs with h1 h2 h3
  · linarith
  · rw [max_eq_left (le_of_lt h1), min_eq_right (by norm_num : (0:ℝ) ≤ 1)]
  · rw [max_eq_right (le_of_not_lt h1), min_eq_left (le_of_lt h3)]
  · rw [max_eq_right (le_of_not_lt h1), min_eq_right (le_of_not_lt h3)]

theorem reportFn_probability_mem (adjustment : ℝ) (nowMs : ℕ) (b : Bucket) :
    0 ≤ (reportFn adjustment nowMs b).probability
      ∧ (reportFn adjustment nowMs b).probability ≤ 1 := by
  rw [reportFn_eq]
  constructor
  · exact le_min (by norm_num) (le_max_left 0 _)
  · exact min_le_left 1 _

theorem touchBucket_probability (lambda : ℝ) (nowMs : ℕ) (b : Bucket) :
    (touchBucket lambda nowMs b).probability
      = adjustProbability b.probability lambda
          (wsub64 nowMs b.lastUpdatedTimeMillis) := rfl

theorem touchBucket_stamp (lambda : ℝ) (nowMs : ℕ) (b : Bucket) :
    (touchBucket lambda nowMs b).lastUpdatedTimeMillis = nowMs := rfl

theorem wrap32_hash_formula (h1 h2 l : ℕ) :
    wrap32 (h1 + wrap32 (wrap32 l * h2)) = (h1 + l * h2) % 2 ^ 32 := by
  have step1 : wrap32 l * h2 ≡ l * h2 [MOD 2 ^ 32] :=
    Nat.ModEq.mul_right h2 (Nat.mod_modEq l (2 ^ 32))
  have step2 : wrap32 (wrap32 l * h2) ≡ l * h2 [MOD 2 ^ 32] :=
    (Nat.mod_modEq _ _).trans step1
  exact Nat.ModEq.add_left h1 step2

theorem generateNHashes_length (hash64 n : ℕ) :
    (generateNHashesUsing64Bit hash64 n).length = n := by
  simp [generateNHashesUsing64Bit]

theorem generateNHashes_getD {l n : ℕ} (hash64 : ℕ) (hl : l < n) :
    (generateNHashesUsing64Bit hash64 n).getD l 0
      = (hash64 % 2 ^ 32 + l * (hash64 / 2 ^ 32 % 2 ^ 32)) % 2 ^ 32 := by
  unfold generateNHashesUsing64Bit
  rw [List.getD_eq_getElem?_getD, List.getElem?_map, List.getElem?_range hl]
  simp [wrap32_hash_formula]

theorem levelIndex_lt (s : Structure) (cid : List ℕ) (l : ℕ)
    (hM : 1 ≤ s.config.M) : levelIndex murmur64 s cid l < s.config.M :=
  Nat.mod_lt _ hM

theorem visitBuckets_levels (s : Structure) (cid : List ℕ) (nowMs : ℕ)
    (fn : Bucket → Bucket) (l m : ℕ) :
    (visitBuckets murmur64 s cid nowMs fn).levels l m
      = if l < s.config.L ∧ m = levelIndex murmur64 s cid l then
          fn (touchBucket s.config.Lambda nowMs (s.levels l m))
        else s.levels l m := rfl

theorem visitBuckets_config (s : Structure) (cid : List ℕ) (nowMs : ℕ)
    (fn : Bucket → Bucket) :
    (visitBuckets murmur64 s cid nowMs fn).config = s.config := rfl

theorem visitBuckets_seed (s : Structure) (cid : List ℕ) (nowMs : ℕ)
    (fn : Bucket → Bucket) :
    (visitBuckets murmur64 s cid nowMs fn).murmurSeed = s.murmurSeed := rfl

theorem reportOutcome_levels (s : Structure) (cid : List ℕ) (nowMs : ℕ)
    (outcome : ℤ) (l m : ℕ) :
    (ReportOutcome murmur64 s cid nowMs outcome).levels l m
      = if l < s.config.L ∧ m = levelIndex murmur64 s cid l then
          { probability := min 1 (max 0
              ((touchBucket s.config.Lambda nowMs (s.levels l m)).probability
                + (if outcome = OutcomeSuccess then -s.config.Pd else s.config.Pi)))
            lastUpdatedTimeMillis := nowMs }
        else s.levels l m := by
  unfold ReportOutcome
  rw [visitBuckets_levels]
  split_ifs with h hs
  · rw [reportFn_eq, neg_one_mul]
  · rw [reportFn_eq]
  · rfl

theorem registerRequest_state_levels (s : Structure) (cid : List ℕ)
    (nowMs : ℕ) (r : ℝ) (l m : ℕ) :
    (RegisterRequest murmur64 s cid nowMs r).2.levels l m
      = if l < s.config.L ∧ m = levelIndex murmur64 s cid l then
          touchBucket s.config.Lambda nowMs (s.levels l m)
        else s.levels l m := by
  unfold RegisterRequest
  rw [visitBuckets_levels]
  rfl

theorem registerRequest_decision (s : Structure) (cid : List ℕ)
    (nowMs : ℕ) (r : ℝ) :
    (RegisterRequest murmur64 s cid nowMs r).1
      = if r ≤ s.config.FinalProbabilityFunction
            (bucketProbabilities murmur64 s cid nowMs) then true else false := rfl

/-! Invariant machinery for the probability-range invariant. -/

/-- Every bucket of the structure has probability in the unit interval. -/
def StructureProbInv (s : Structure) : Prop :=
  ∀ l m, 0 ≤ (s.levels l m).probability ∧ (s.levels l m).probability ≤ 1

/-- Both matrices of the tracker satisfy the probability-range invariant. -/
def TrackerProbInv (ft : FairnessTracker) : Prop :=
  StructureProbInv ft.mainStructure ∧ StructureProbInv ft.secondaryStructure

theorem newStructure_probInv (cfg : FairnessTrackerConfig) (id seed nowMs : ℕ) :
    StructureProbInv (NewStructureWithClock cfg id seed nowMs) := by
  intro l m
  exact ⟨le_refl 0, by norm_num [NewStructureWithClock, newBucket]⟩

theorem touchBucket_probability_mem {lambda : ℝ} (nowMs : ℕ) {b : Bucket}
    (hl : 0 ≤ lambda) (hb0 : 0 ≤ b.probability) (hb1 : b.probability ≤ 1) :
    0 ≤ (touchBucket lambda nowMs b).probability
      ∧ (touchBucket lambda nowMs b).probability ≤ 1 := by
  rw [touchBucket_probability]
  exact ⟨adjustProbability_nonneg _ _ _, adjustProbability_le_one _ hb0 hb1 hl⟩

theorem visitBuckets_probInv {s : Structure} (cid : List ℕ) (nowMs : ℕ)
    {fn : Bucket → Bucket} (hs : StructureProbInv s) (hl : 0 ≤ s.config.Lambda)
    (hfn : ∀ b : Bucket, 0 ≤ b.probability → b.probability ≤ 1 →
      0 ≤ (fn b).probability ∧ (fn b).probability ≤ 1) :
    StructureProbInv (visitBuckets murmur64 s cid nowMs fn) := by
  intro l m
  rw [visitBuckets_levels]
  split_ifs with h
  · have ht := touchBucket_probability_mem nowMs hl (hs l m).1 (hs l m).2
    exact hfn _ ht.1 ht.2
  · exact hs l m

theorem registerRequest_probInv {s : Structure} (cid : List ℕ) (nowMs : ℕ)
    (r : ℝ) (hs : StructureProbInv s) (hl : 0 ≤ s.config.Lambda) :
    StructureProbInv (RegisterRequest murmur64 s cid nowMs r).2 := by
  unfold RegisterRequest
  exact visitBuckets_probInv murmur64 cid nowMs hs hl fun b hb0 hb1 => ⟨hb0, hb1⟩

theorem reportOutcome_probInv {s : Structure} (cid : List ℕ) (nowMs : ℕ)
    (outcome : ℤ) (hs : StructureProbInv s) (hl : 0 ≤ s.config.Lambda) :
    StructureProbInv (ReportOutcome murmur64 s cid nowMs outcome) := by
  unfold ReportOutcome
  exact visitBuckets_probInv murmur64 cid nowMs hs hl
    fun b _ _ => reportFn_probability_mem _ nowMs b

theorem applyOp_config (ft : FairnessTracker) (op : Op) :
    (applyOp murmur64 ft op).mainStructure.config = ft.mainStructure.config
      ∧ (applyOp murmur64 ft op).secondaryStructure.config
          = ft.secondaryStructure.config := by
  cases op <;> exact ⟨rfl, rfl⟩

theorem applyOp_probInv {ft : FairnessTracker} (op : Op)
    (hm : 0 ≤ ft.mainStructure.config.Lambda)
    (hsec : 0 ≤ ft.secondaryStructure.config.Lambda)
    (h : TrackerProbInv ft) : TrackerProbInv (applyOp murmur64 ft op) := by
  cases op with
  | register cid n r =>
      exact ⟨registerRequest_probInv murmur64 cid n r h.1 hm,
        registerRequest_probInv murmur64 cid n r h.2 hsec⟩
  | report cid n o =>
      exact ⟨reportOutcome_probInv murmur64 cid n o h.1 hm,
        reportOutcome_probInv murmur64 cid n o h.2 hsec⟩

theorem applyOps_probInv {ft : FairnessTracker} (ops : List Op)
    (hm : 0 ≤ ft.mainStructure.config.Lambda)
    (hsec : 0 ≤ ft.secondaryStructure.config.Lambda)
    (h : TrackerProbInv ft) : TrackerProbInv (applyOps murmur64 ft ops) := by
  induction ops generalizing ft with
  | nil => exact h
  | cons op ops ih =>
      have hc := applyOp_config murmur64 ft op
      exact ih (hc.1 ▸ hm) (hc.2 ▸ hsec) (applyOp_probInv murmur64 op hm hsec h)

/-- Per-operation write-time property: an operation either leaves a bucket
untouched or stamps it with the clock value the operation observed. -/
theorem visitBuckets_lastWrite (s : Structure) (cid : List ℕ) (nowMs : ℕ)
    (fn : Bucket → Bucket)
    (hfn : ∀ b : Bucket, b.lastUpdatedTimeMillis = nowMs →
      (fn b).lastUpdatedTimeMillis = nowMs)
    (l m : ℕ) :
    (visitBuckets murmur64 s cid nowMs fn).levels l m = s.levels l m
      ∨ ((visitBuckets murmur64 s cid nowMs fn).levels l m).lastUpdatedTimeMillis
          = nowMs := by
  rw [visitBuckets_levels]
  split_ifs with h
  · exact Or.inr (hfn _ (touchBucket_stamp _ _ _))
  · exact Or.inl rfl

theorem applyOp_lastWrite (ft : FairnessTracker) (op : Op) (l m : ℕ) :
    ((applyOp murmur64 ft op).mainStructure.levels l m
        = ft.mainStructure.levels l m
      ∨ ((applyOp murmur64 ft op).mainStructure.levels l m).lastUpdatedTimeMillis
          = op.nowMs)
    ∧ ((applyOp murmur64 ft op).secondaryStructure.levels l m
        = ft.secondaryStructure.levels l m
      ∨ ((applyOp murmur64 ft op).secondaryStructure.levels l m).lastUpdatedTimeMillis
          = op.nowMs) := by
  cases op with
  | register cid n r =>
      exact ⟨visitBuckets_lastWrite murmur64 ft.mainStructure cid n id
          (fun _ h => h) l m,
        visitBuckets_lastWrite murmur64 ft.secondaryStructure cid n id
          (fun _ h => h) l m⟩
  | report cid n o =>
      exact ⟨visitBuckets_lastWrite murmur64 ft.mainStructure cid n _
          (fun _ _ => rfl) l m,
        visitBuckets_lastWrite murmur64 ft.secondaryStructure cid n _
          (fun _ _ => rfl) l m⟩

theorem reportOutcome_config (s : Structure) (cid : List ℕ) (nowMs : ℕ)
    (outcome : ℤ) :
    (ReportOutcome murmur64 s cid nowMs outcome).config = s.config := rfl

theorem reportOutcome_seed (s : Structure) (cid : List ℕ) (nowMs : ℕ)
    (outcome : ℤ) :
    (ReportOutcome murmur64 s cid nowMs outcome).murmurSeed = s.murmurSeed := rfl

theorem levelIndex_congr {s s' : Structure} (cid : List ℕ) (l : ℕ)
    (hseed : s'.murmurSeed = s.murmurSeed) (hL : s'.config.L = s.config.L)
    (hM : s'.config.M = s.config.M) :
    levelIndex murmur64 s' cid l = levelIndex murmur64 s cid l := by
  unfold levelIndex
  rw [hseed, hL, hM]

/-! Claim theorems. -/

/-- C1: for every client identifier and validly configured tracker,
`ReportOutcome` adds `Pi` (outcome Failure) to, resp. subtracts `Pd`
(outcome Success) from, the probability of each of the `L` selected buckets
in both the primary and the secondary matrix, applying the adjustment to the
decayed-on-visit value and clamping the result to `[0, 1]`; every bucket
outside the `2L` selected ones (L per matrix) is unchanged. -/
theorem c1_reportOutcome_adjusts_selected_buckets (ft : FairnessTracker)
    (cid : List ℕ) (nowMs : ℕ) (outcome : ℤ)
    (hvm : ValidStructureConfig ft.mainStructure.config)
    (hvs : ValidStructureConfig ft.secondaryStructure.config)
    (hout : outcome = OutcomeSuccess ∨ outcome = OutcomeFailure) :
    (∀ l, l < ft.mainStructure.config.L →
      (TrackerReportOutcome murmur64 ft cid nowMs outcome).mainStructure.levels l
          (levelIndex murmur64 ft.mainStructure cid l)
        = { probability := min 1 (max 0
              ((touchBucket ft.mainStructure.config.Lambda nowMs
                  (ft.mainStructure.levels l
                    (levelIndex murmur64 ft.mainStructure cid l))).probability
                + (if outcome = OutcomeSuccess then -ft.mainStructure.config.Pd
                    else ft.mainStructure.config.Pi)))
            lastUpdatedTimeMillis := nowMs })
    ∧ (∀ l m, ¬(l < ft.mainStructure.config.L
          ∧ m = levelIndex murmur64 ft.mainStructure cid l) →
        (TrackerReportOutcome murmur64 ft cid nowMs outcome).mainStructure.levels l m
          = ft.mainStructure.levels l m)
    ∧ (∀ l, l < ft.secondaryStructure.config.L →
      (TrackerReportOutcome murmur64 ft cid nowMs outcome).secondaryStructure.levels l
          (levelIndex murmur64 ft.secondaryStructure cid l)
        = { probability := min 1 (max 0
              ((touchBucket ft.secondaryStructure.config.Lambda nowMs
                  (ft.secondaryStructure.levels l
                    (levelIndex murmur64 ft.secondaryStructure cid l))).probability
                + (if outcome = OutcomeSuccess then -ft.secondaryStructure.config.Pd
                    else ft.secondaryStructure.config.Pi)))
            lastUpdatedTimeMillis := nowMs })
    ∧ (∀ l m, ¬(l < ft.secondaryStructure.config.L
          ∧ m = levelIndex murmur64 ft.secondaryStructure cid l) →
        (TrackerReportOutcome murmur64 ft cid nowMs outcome).secondaryStructure.levels l m
          = ft.secondaryStructure.levels l m) := by
  refine ⟨?_, ?_, ?_, ?_⟩
  · intro l hl
    show (ReportOutcome murmur64 ft.mainStructure cid nowMs outcome).levels _ _ = _
    rw [reportOutcome_levels, if_pos ⟨hl, rfl⟩]
  · intro l m hm
    show (ReportOutcome murmur64 ft.mainStructure cid nowMs outcome).levels _ _ = _
    rw [reportOutcome_levels, if_neg hm]
  · intro l hl
    show (ReportOutcome murmur64 ft.secondaryStructure cid nowMs outcome).levels _ _ = _
    rw [reportOutcome_levels, if_pos ⟨hl, rfl⟩]
  · intro l m hm
    show (ReportOutcome murmur64 ft.secondaryStructure cid nowMs outcome).levels _ _ = _
    rw [reportOutcome_levels, if_neg hm]

/-- Witness for C1: the calibration configuration, the empty identifier and
outcome Failure. -/
theorem c1_reportOutcome_adjusts_selected_buckets_witness :
    ValidStructureConfig
        (NewFairnessTrackerWithClockAndTicker sampleConfig 0 0 0).mainStructure.config
    ∧ (OutcomeFailure = OutcomeSuccess ∨ OutcomeFailure = OutcomeFailure)
    ∧ ((∀ l, l < (NewFairnessTrackerWithClockAndTicker sampleConfig 0 0 0).mainStructure.config.L →
        (TrackerReportOutcome murmurZero
            (NewFairnessTrackerWithClockAndTicker sampleConfig 0 0 0) [] 5
            OutcomeFailure).mainStructure.levels l
            (levelIndex murmurZero
              (NewFairnessTrackerWithClockAndTicker sampleConfig 0 0 0).mainStructure [] l)
          = { probability := min 1 (max 0
                ((touchBucket
                    (NewFairnessTrackerWithClockAndTicker sampleConfig 0 0 0).mainStructure.config.Lambda
                    5
                    ((NewFairnessTrackerWithClockAndTicker sampleConfig 0 0 0).mainStructure.levels l
                      (levelIndex murmurZero
                        (NewFairnessTrackerWithClockAndTicker sampleConfig 0 0 0).mainStructure [] l))).probability
                  + (if OutcomeFailure = OutcomeSuccess
                      then -(NewFairnessTrackerWithClockAndTicker sampleConfig 0 0 0).mainStructure.config.Pd
                      else (NewFairnessTrackerWithClockAndTicker sampleConfig 0 0 0).mainStructure.config.Pi)))
              lastUpdatedTimeMillis := 5 })
      ∧ (∀ l m, ¬(l < (NewFairnessTrackerWithClockAndTicker sampleConfig 0 0 0).mainStructure.config.L
            ∧ m = levelIndex murmurZero
                (NewFairnessTrackerWithClockAndTicker sampleConfig 0 0 0).mainStructure [] l) →
          (TrackerReportOutcome murmurZero
              (NewFairnessTrackerWithClockAndTicker sampleConfig 0 0 0) [] 5
              OutcomeFailure).mainStructure.levels l m
            = (NewFairnessTrackerWithClockAndTicker sampleConfig 0 0 0).mainStructure.levels l m)
      ∧ (∀ l, l < (NewFairnessTrackerWithClockAndTicker sampleConfig 0 0 0).secondaryStructure.config.L →
        (TrackerReportOutcome murmurZero
            (NewFairnessTrackerWithClockAndTicker sampleConfig 0 0 0) [] 5
            OutcomeFailure).secondaryStructure.levels l
            (levelIndex murmurZero
              (NewFairnessTrackerWithClockAndTicker sampleConfig 0 0 0).secondaryStructure [] l)
          = { probability := min 1 (max 0
                ((touchBucket
                    (NewFairnessTrackerWithClockAndTicker sampleConfig 0 0 0).secondaryStructure.config.Lambda
                    5
                    ((NewFairnessTrackerWithClockAndTicker sampleConfig 0 0 0).secondaryStructure.levels l
                      (levelIndex murmurZero
                        (NewFairnessTrackerWithClockAndTicker sampleConfig 0 0 0).secondaryStructure [] l))).probability
                  + (if OutcomeFailure = OutcomeSuccess
                      then -(NewFairnessTrackerWithClockAndTicker sampleConfig 0 0 0).secondaryStructure.config.Pd
                      else (NewFairnessTrackerWithClockAndTicker sampleConfig 0 0 0).secondaryStructure.config.Pi)))
              lastUpdatedTimeMillis := 5 })
      ∧ (∀ l m, ¬(l < (NewFairnessTrackerWithClockAndTicker sampleConfig 0 0 0).secondaryStructure.config.L
            ∧ m = levelIndex murmurZero
                (NewFairnessTrackerWithClockAndTicker sampleConfig 0 0 0).secondaryStructure [] l) →
          (TrackerReportOutcome murmurZero
              (NewFairnessTrackerWithClockAndTicker sampleConfig 0 0 0) [] 5
              OutcomeFailure).secondaryStructure.levels l m
            = (NewFairnessTrackerWithClockAndTicker sampleConfig 0 0 0).secondaryStructure.levels l m)) :=
  ⟨sampleConfig_valid, Or.inr rfl,
    c1_reportOutcome_adjusts_selected_buckets murmurZero
      (NewFairnessTrackerWithClockAndTicker sampleConfig 0 0 0) [] 5 OutcomeFailure
      sampleConfig_valid sampleConfig_valid (Or.inr rfl)⟩

/-- C6: the code is NOT idempotent on Close.  Evaluating `Close` twice on a
fresh tracker: the first call succeeds, the second hits Go's
`close(ft.stopRotation)` on an already-closed channel, which panics with
"close of closed channel" instead of completing without error. -/
theorem c6_close_twice_panics :
    (CloseTracker (NewFairnessTrackerWithClockAndTicker sampleConfig 0 0 0)).isOk = true
    ∧ ((CloseTracker (NewFairnessTrackerWithClockAndTicker sampleConfig 0 0 0)).bind
          CloseTracker)
        = Except.error "close of closed channel" :=
  ⟨rfl, rfl⟩

/-- C7: the hasher produces exactly `L` indices; at level `l` the selected
column is `(h1 + l * h2) mod 2^32 mod M` where `h1` is the low and `h2` the
high 32-bit half of the single 64-bit murmur digest of the identifier; every
index is below `M`; and the index vector depends only on the identifier, the
seed, `L` and `M`. -/
theorem c7_hasher_kirsch_mitzenmacher (s : Structure) (cid : List ℕ)
    (hL : 1 ≤ s.config.L) (hM : 1 ≤ s.config.M)
    (hbound : murmur64 cid s.murmurSeed < 2 ^ 64) :
    (generateNHashesUsing64Bit (murmur64 cid s.murmurSeed) s.config.L).length
        = s.config.L
    ∧ (∀ l, l < s.config.L →
        levelIndex murmur64 s cid l
          = (murmur64 cid s.murmurSeed % 2 ^ 32
              + l * (murmur64 cid s.murmurSeed / 2 ^ 32)) % 2 ^ 32 % s.config.M)
    ∧ (∀ l, levelIndex murmur64 s cid l < s.config.M)
    ∧ (∀ s' : Structure, s'.murmurSeed = s.murmurSeed →
        s'.config.L = s.config.L → s'.config.M = s.config.M →
        ∀ l, levelIndex murmur64 s' cid l = levelIndex murmur64 s cid l) := by
  have hdiv : murmur64 cid s.murmurSeed / 2 ^ 32 % 2 ^ 32
      = murmur64 cid s.murmurSeed / 2 ^ 32 :=
    Nat.mod_eq_of_lt (Nat.div_lt_of_lt_mul (by norm_num at hbound ⊢; omega))
  refine ⟨generateNHashes_length _ _, ?_, ?_, ?_⟩
  · intro l hl
    unfold levelIndex
    rw [generateNHashes_getD _ hl, hdiv]
  · intro l
    exact levelIndex_lt murmur64 s cid l hM
  · intro s' h1 h2 h3 l
    exact levelIndex_congr murmur64 cid l h1 h2 h3

/-- Witness for C7: the empty identifier against a freshly built calibration
structure and the trivial digest function. -/
theorem c7_hasher_kirsch_mitzenmacher_witness :
    1 ≤ (NewStructureWithClock sampleConfig 1 0 0).config.L
    ∧ 1 ≤ (NewStructureWithClock sampleConfig 1 0 0).config.M
    ∧ murmurZero [] (NewStructureWithClock sampleConfig 1 0 0).murmurSeed < 2 ^ 64
    ∧ ((generateNHashesUsing64Bit
          (murmurZero [] (NewStructureWithClock sampleConfig 1 0 0).murmurSeed)
          (NewStructureWithClock sampleConfig 1 0 0).config.L).length
        = (NewStructureWithClock sampleConfig 1 0 0).config.L
      ∧ (∀ l, l < (NewStructureWithClock sampleConfig 1 0 0).config.L →
          levelIndex murmurZero (NewStructureWithClock sampleConfig 1 0 0) [] l
            = (murmurZero [] (NewStructureWithClock sampleConfig 1 0 0).murmurSeed % 2 ^ 32
                + l * (murmurZero [] (NewStructureWithClock sampleConfig 1 0 0).murmurSeed / 2 ^ 32))
                % 2 ^ 32 % (NewStructureWithClock sampleConfig 1 0 0).config.M)
      ∧ (∀ l, levelIndex murmurZero (NewStructureWithClock sampleConfig 1 0 0) [] l
            < (NewStructureWithClock sampleConfig 1 0 0).config.M)
      ∧ (∀ s' : Structure,
          s'.murmurSeed = (NewStructureWithClock sampleConfig 1 0 0).murmurSeed →
          s'.config.L = (NewStructureWithClock sampleConfig 1 0 0).config.L →
          s'.config.M = (NewStructureWithClock sampleConfig 1 0 0).config.M →
          ∀ l, levelIndex murmurZero s' [] l
            = levelIndex murmurZero (NewStructureWithClock sampleConfig 1 0 0) [] l)) :=
  ⟨by decide, by decide, by decide,
    c7_hasher_kirsch_mitzenmacher murmurZero (NewStructureWithClock sampleConfig 1 0 0)
      [] (by decide) (by decide) (by decide)⟩

/-- C10: `ReportOutcome` branches only on equality with `OutcomeSuccess`:
every outcome different from Success — including integers outside the
declared enum — produces exactly the state produced by `OutcomeFailure`. -/
theorem c10_nonsuccess_outcome_acts_as_failure (s : Structure) (cid : List ℕ)
    (nowMs : ℕ) (outcome : ℤ) (h : outcome ≠ OutcomeSuccess) :
    ReportOutcome murmur64 s cid nowMs outcome
      = ReportOutcome murmur64 s cid nowMs OutcomeFailure := by
  unfold ReportOutcome
  dsimp only
  rw [if_neg h, if_neg (by decide : ¬(OutcomeFailure = OutcomeSuccess))]

/-- Witness for C10: the out-of-enum outcome value 7. -/
theorem c10_nonsuccess_outcome_acts_as_failure_witness :
    (7:ℤ) ≠ OutcomeSuccess
    ∧ ReportOutcome murmurZero (NewStructureWithClock sampleConfig 1 0 0) [] 3 7
        = ReportOutcome murmurZero (NewStructureWithClock sampleConfig 1 0 0) [] 3
            OutcomeFailure :=
  ⟨by decide,
    c10_nonsuccess_outcome_acts_as_failure murmurZero
      (NewStructureWithClock sampleConfig 1 0 0) [] 3 7 (by decide)⟩

/-- C3 counterexample: with all buckets at zero the final probability is 0,
and `r = 0` is a possible value of `rand.Float64()` (uniform on `[0, 1)`);
since the comparison is `r <= pFinal`, the draw `r = 0` yields
`should_throttle = true`, contradicting the claim that `p_final = 0` gives
`should_throttle = false` for every possible draw. -/
theorem c3_counterexample_zero_draw :
    (0:ℝ) ≤ 0 ∧ (0:ℝ) < 1
    ∧ sampleConfig.FinalProbabilityFunction
        (bucketProbabilities murmurZero (NewStructureWithClock sampleConfig 1 0 0) [] 0)
      = 0
    ∧ (RegisterRequest murmurZero (NewStructureWithClock sampleConfig 1 0 0) [] 0 0).1
      = true := by
  have hprobs : bucketProbabilities murmurZero
      (NewStructureWithClock sampleConfig 1 0 0) [] 0 = [0, 0] := by
    show (List.range 2).map _ = [0, 0]
    rw [List.range_succ, List.range_succ, List.range_zero]
    simp only [List.map_append, List.map_cons, List.map_nil, List.nil_append]
    have hb : ∀ l : ℕ,
        (touchBucket (NewStructureWithClock sampleConfig 1 0 0).config.Lambda 0
          ((NewStructureWithClock sampleConfig 1 0 0).levels l
            (levelIndex murmurZero (NewStructureWithClock sampleConfig 1 0 0) [] l))).probability
          = 0 := by
      intro l
      rw [touchBucket_probability]
      show adjustProbability 0 sampleConfig.Lambda (wsub64 0 0) = 0
      unfold adjustProbability
      dsimp only
      norm_num
    rw [hb 0, hb 1]
    rfl
  have hfinal : sampleConfig.FinalProbabilityFunction
      (bucketProbabilities murmurZero (NewStructureWithClock sampleConfig 1 0 0) [] 0)
      = 0 := by
    rw [hprobs]
    show MinFinalProbabilityFunction [0, 0] = 0
    unfold MinFinalProbabilityFunction
    norm_num [min_def]
  refine ⟨le_refl 0, by norm_num, hfinal, ?_⟩
  rw [registerRequest_decision]
  have : (RegisterRequest murmurZero (NewStructureWithClock sampleConfig 1 0 0) [] 0 0).1
      = (RegisterRequest murmurZero (NewStructureWithClock sampleConfig 1 0 0) [] 0 0).1 := rfl
  rw [show (NewStructureWithClock sampleConfig 1 0 0).config.FinalProbabilityFunction
        (bucketProbabilities murmurZero (NewStructureWithClock sampleConfig 1 0 0) [] 0)
      = 0 from hfinal]
  rw [if_pos (le_refl 0)]

/-- C3 amended: the throttle decision is `should_throttle = (r <= p_final)`
for the uniform draw `r` from `[0, 1)`; `p_final >= 1` throttles for every
possible draw, and `p_final = 0` yields `should_throttle = false` for every
draw `r > 0` — but the boundary draw `r = 0` throttles, so "never throttles"
holds only up to that single possible draw. -/
theorem c3_amended_throttle_decision (s : Structure) (cid : List ℕ)
    (nowMs : ℕ) (r : ℝ) (hr0 : 0 ≤ r) (hr1 : r < 1) :
    ((RegisterRequest murmur64 s cid nowMs r).1 = true
      ↔ r ≤ s.config.FinalProbabilityFunction
          (bucketProbabilities murmur64 s cid nowMs))
    ∧ (s.config.FinalProbabilityFunction
          (bucketProbabilities murmur64 s cid nowMs) = 0 → 0 < r →
        (RegisterRequest murmur64 s cid nowMs r).1 = false)
    ∧ (1 ≤ s.config.FinalProbabilityFunction
          (bucketProbabilities murmur64 s cid nowMs) →
        (RegisterRequest murmur64 s cid nowMs r).1 = true) := by
  refine ⟨?_, ?_, ?_⟩
  · rw [registerRequest_decision]
    split_ifs with h
    · simp [h]
    · simp [h]
  · intro h0 hr
    rw [registerRequest_decision, h0, if_neg (not_le.mpr hr)]
  · intro h1
    rw [registerRequest_decision, if_pos (le_of_lt (lt_of_lt_of_le hr1 h1))]

/-- Witness for C3 (amended) at the draw `r = 1/2`. -/
theorem c3_amended_throttle_decision_witness :
    (0:ℝ) ≤ 1/2 ∧ (1/2:ℝ) < 1
    ∧ (((RegisterRequest murmurZero (NewStructureWithClock sampleConfig 1 0 0) [] 0 (1/2)).1 = true
        ↔ (1/2:ℝ) ≤ (NewStructureWithClock sampleConfig 1 0 0).config.FinalProbabilityFunction
            (bucketProbabilities murmurZero (NewStructureWithClock sampleConfig 1 0 0) [] 0))
      ∧ ((NewStructureWithClock sampleConfig 1 0 0).config.FinalProbabilityFunction
            (bucketProbabilities murmurZero (NewStructureWithClock sampleConfig 1 0 0) [] 0) = 0
          → (0:ℝ) < 1/2 →
          (RegisterRequest murmurZero (NewStructureWithClock sampleConfig 1 0 0) [] 0 (1/2)).1 = false)
      ∧ (1 ≤ (NewStructureWithClock sampleConfig 1 0 0).config.FinalProbabilityFunction
            (bucketProbabilities murmurZero (NewStructureWithClock sampleConfig 1 0 0) [] 0) →
          (RegisterRequest murmurZero (NewStructureWithClock sampleConfig 1 0 0) [] 0 (1/2)).1 = true)) :=
  ⟨by norm_num, by norm_num,
    c3_amended_throttle_decision murmurZero (NewStructureWithClock sampleConfig 1 0 0)
      [] 0 (1/2) (by norm_num) (by norm_num)⟩

/-- C4: the code does NOT guard against a backwards clock.  With
`now_ms = 0 < 1000 = last_updated_ms`, the `uint64` subtraction wraps to
`2^64 - 1000`; the visit then decays the probability (strictly below its old
value 1 instead of leaving it undecayed) and moves the timestamp backwards
to 0 instead of leaving it unchanged. -/
theorem c4_clock_backwards_wrapped_decay :
    wsub64 0 1000 = 2 ^ 64 - 1000
    ∧ (touchBucket (1/100) 0
        { probability := 1, lastUpdatedTimeMillis := 1000 }).lastUpdatedTimeMillis = 0
    ∧ (touchBucket (1/100) 0
        { probability := 1, lastUpdatedTimeMillis := 1000 }).probability < 1 := by
  refine ⟨by decide, rfl, ?_⟩
  rw [touchBucket_probability]
  show adjustProbability 1 (1/100) (wsub64 0 1000) < 1
  rw [(by decide : wsub64 0 1000 = 18446744073709550616)]
  unfold adjustProbability
  dsimp only
  rw [one_mul]
  rw [if_neg (not_lt.mpr (le_of_lt (Real.exp_pos _)))]
  rw [Real.exp_lt_one_iff, neg_lt_zero]
  positivity

theorem applyRotations_id_invariant (ft : FairnessTracker)
    (ticks : List (ℕ × ℕ))
    (h1 : ft.secondaryStructure.id = ft.mainStructure.id + 1)
    (h2 : ft.structureIDCounter = ft.secondaryStructure.id + 1) :
    (applyRotations ft ticks).secondaryStructure.id
        = (applyRotations ft ticks).mainStructure.id + 1
      ∧ (applyRotations ft ticks).structureIDCounter
          = (applyRotations ft ticks).secondaryStructure.id + 1 := by
  induction ticks generalizing ft with
  | nil => exact ⟨h1, h2⟩
  | cons t ts ih => exact ih _ h2 rfl

/-- C8: after construction `(primary.id, secondary.id, counter) = (1, 2, 3)`;
each rotation tick makes the former secondary (with its bucket state, not a
copy) the new primary, installs a freshly built structure with
`id = structureIDCounter` as the new secondary, and increments the counter;
consequently `secondary.id = primary.id + 1` (and the counter stays one ahead
of the secondary id) after initialization and after every number of
rotations. -/
theorem c8_rotation_promotes_secondary (cfg : FairnessTrackerConfig)
    (seed1 seed2 now0 : ℕ) (ticks : List (ℕ × ℕ)) :
    ((NewFairnessTrackerWithClockAndTicker cfg seed1 seed2 now0).mainStructure.id = 1
      ∧ (NewFairnessTrackerWithClockAndTicker cfg seed1 seed2 now0).secondaryStructure.id = 2
      ∧ (NewFairnessTrackerWithClockAndTicker cfg seed1 seed2 now0).structureIDCounter = 3)
    ∧ (∀ (ft : FairnessTracker) (freshSeed nowMs : ℕ),
        (rotateTick ft freshSeed nowMs).mainStructure = ft.secondaryStructure
        ∧ (rotateTick ft freshSeed nowMs).secondaryStructure
            = NewStructureWithClock ft.trackerConfig ft.structureIDCounter freshSeed nowMs
        ∧ (rotateTick ft freshSeed nowMs).secondaryStructure.id = ft.structureIDCounter
        ∧ (rotateTick ft freshSeed nowMs).structureIDCounter
            = ft.structureIDCounter + 1)
    ∧ (applyRotations (NewFairnessTrackerWithClockAndTicker cfg seed1 seed2 now0)
          ticks).secondaryStructure.id
        = (applyRotations (NewFairnessTrackerWithClockAndTicker cfg seed1 seed2 now0)
            ticks).mainStructure.id + 1
    ∧ (applyRotations (NewFairnessTrackerWithClockAndTicker cfg seed1 seed2 now0)
          ticks).structureIDCounter
        = (applyRotations (NewFairnessTrackerWithClockAndTicker cfg seed1 seed2 now0)
            ticks).secondaryStructure.id + 1 := by
  refine ⟨⟨rfl, rfl, rfl⟩, fun ft freshSeed nowMs => ⟨rfl, rfl, rfl, rfl⟩, ?_, ?_⟩
  · exact (applyRotations_id_invariant _ ticks rfl rfl).1
  · exact (applyRotations_id_invariant _ ticks rfl rfl).2

/-- C2 (amended, restricted to nonnegative decay rates): starting from the
all-zero freshly constructed tracker, after any sequence of completed
register and report operations every bucket's probability lies in `[0, 1]`;
and each operation either leaves a bucket untouched or stamps its
`last_updated_ms` with the clock value that operation observed (so the stamp
always equals the time observed by the operation that last wrote it). -/
theorem c2_amended_probability_invariant (cfg : FairnessTrackerConfig)
    (hv : ValidStructureConfig cfg) (hlam : 0 ≤ cfg.Lambda)
    (seed1 seed2 now0 : ℕ) (ops : List Op) :
    (∀ l m,
      (0 ≤ ((applyOps murmur64
          (NewFairnessTrackerWithClockAndTicker cfg seed1 seed2 now0)
          ops).mainStructure.levels l m).probability
        ∧ ((applyOps murmur64
            (NewFairnessTrackerWithClockAndTicker cfg seed1 seed2 now0)
            ops).mainStructure.levels l m).probability ≤ 1)
      ∧ (0 ≤ ((applyOps murmur64
            (NewFairnessTrackerWithClockAndTicker cfg seed1 seed2 now0)
            ops).secondaryStructure.levels l m).probability
        ∧ ((applyOps murmur64
            (NewFairnessTrackerWithClockAndTicker cfg seed1 seed2 now0)
            ops).secondaryStructure.levels l m).probability ≤ 1))
    ∧ (∀ (ft : FairnessTracker) (op : Op) (l m : ℕ),
        ((applyOp murmur64 ft op).mainStructure.levels l m
            = ft.mainStructure.levels l m
          ∨ ((applyOp murmur64 ft op).mainStructure.levels l m).lastUpdatedTimeMillis
              = op.nowMs)
        ∧ ((applyOp murmur64 ft op).secondaryStructure.levels l m
            = ft.secondaryStructure.levels l m
          ∨ ((applyOp murmur64 ft op).secondaryStructure.levels l m).lastUpdatedTimeMillis
              = op.nowMs)) := by
  constructor
  · intro l m
    have hinv : TrackerProbInv (NewFairnessTrackerWithClockAndTicker cfg seed1 seed2 now0) :=
      ⟨newStructure_probInv cfg 1 seed1 now0, newStructure_probInv cfg 2 seed2 now0⟩
    have h := applyOps_probInv murmur64 ops hlam hlam hinv
    exact ⟨h.1 l m, h.2 l m⟩
  · intro ft op l m
    exact applyOp_lastWrite murmur64 ft op l m

/-- Witness for C2 (amended): the calibration configuration (decay rate 0)
and the empty operation sequence. -/
theorem c2_amended_probability_invariant_witness :
    ValidStructureConfig sampleConfig ∧ (0:ℝ) ≤ sampleConfig.Lambda
    ∧ ((∀ l m,
        (0 ≤ ((applyOps murmurZero
            (NewFairnessTrackerWithClockAndTicker sampleConfig 0 0 0)
            []).mainStructure.levels l m).probability
          ∧ ((applyOps murmurZero
              (NewFairnessTrackerWithClockAndTicker sampleConfig 0 0 0)
              []).mainStructure.levels l m).probability ≤ 1)
        ∧ (0 ≤ ((applyOps murmurZero
              (NewFairnessTrackerWithClockAndTicker sampleConfig 0 0 0)
              []).secondaryStructure.levels l m).probability
          ∧ ((applyOps murmurZero
              (NewFairnessTrackerWithClockAndTicker sampleConfig 0 0 0)
              []).secondaryStructure.levels l m).probability ≤ 1))
      ∧ (∀ (ft : FairnessTracker) (op : Op) (l m : ℕ),
          ((applyOp murmurZero ft op).mainStructure.levels l m
              = ft.mainStructure.levels l m
            ∨ ((applyOp murmurZero ft op).mainStructure.levels l m).lastUpdatedTimeMillis
                = op.nowMs)
          ∧ ((applyOp murmurZero ft op).secondaryStructure.levels l m
              = ft.secondaryStructure.levels l m
            ∨ ((applyOp murmurZero ft op).secondaryStructure.levels l m).lastUpdatedTimeMillis
                = op.nowMs))) :=
  ⟨sampleConfig_valid, le_refl 0,
    c2_amended_probability_invariant murmurZero sampleConfig sampleConfig_valid
      (le_refl 0) 0 0 0 []⟩

/-- The configuration used in the C2 counterexample: it passes
`validateStructureConfig` (which never inspects `Lambda`) although its decay
rate is negative. -/
noncomputable def negLambdaConfig : FairnessTrackerConfig :=
  { M := 1
    L := 1
    Pi := 1/2
    Pd := 1/4
    Lambda := -1
    RotationFrequencyMs := 1000
    IncludeStats := false
    FinalProbabilityFunction := MinFinalProbabilityFunction }

theorem negLambdaConfig_valid : ValidStructureConfig negLambdaConfig := by
  refine ⟨?_, ?_, ?_, ?_, ?_, ?_, ?_⟩ <;> norm_num [negLambdaConfig]

/-- C2 counterexample: the config `L=1, M=1, Pi=1/2, Pd=1/4, Lambda=-1`
passes construction-time validation, yet after a Failure report at t=1000ms
followed by a register at t=2000ms the visited bucket's probability is
`exp(1)/2 > 1`: the decay factor `exp(-lambda*dt)` exceeds 1 for a negative
`Lambda` and nothing clamps the decayed value from above. -/
theorem c2_counterexample_negative_lambda :
    ValidStructureConfig negLambdaConfig
    ∧ 1 < (((applyOps murmurZero
          (NewFairnessTrackerWithClockAndTicker negLambdaConfig 0 0 1000)
          [Op.report [] 1000 OutcomeFailure,
            Op.register [] 2000 0]).mainStructure.levels 0 0).probability) := by
  refine ⟨negLambdaConfig_valid, ?_⟩
  show 1 < (((RegisterRequest murmurZero
      (ReportOutcome murmurZero (NewStructureWithClock negLambdaConfig 1 0 1000)
        [] 1000 OutcomeFailure)
      [] 2000 0).2).levels 0 0).probability
  have hs1 : (ReportOutcome murmurZero (NewStructureWithClock negLambdaConfig 1 0 1000)
      [] 1000 OutcomeFailure).levels 0 0
      = { probability := 1/2, lastUpdatedTimeMillis := 1000 } := by
    rw [reportOutcome_levels, if_pos ⟨by decide, by decide⟩,
      if_neg (by decide : ¬(OutcomeFailure = OutcomeSuccess))]
    have ht : (touchBucket (NewStructureWithClock negLambdaConfig 1 0 1000).config.Lambda
        1000 ((NewStructureWithClock negLambdaConfig 1 0 1000).levels 0 0)).probability
        = 0 := by
      rw [touchBucket_probability]
      show adjustProbability 0 negLambdaConfig.Lambda (wsub64 1000 1000) = 0
      rw [(by decide : wsub64 1000 1000 = 0)]
      unfold adjustProbability
      dsimp only
      norm_num
    rw [ht]
    norm_num [negLambdaConfig, NewStructureWithClock, min_def, max_def]
  rw [registerRequest_state_levels, if_pos ⟨by decide, by decide⟩, hs1]
  rw [touchBucket_probability]
  show 1 < adjustProbability (1/2) negLambdaConfig.Lambda (wsub64 2000 1000)
  rw [(by decide : wsub64 2000 1000 = 1000)]
  unfold adjustProbability
  dsimp only
  have harg : -(negLambdaConfig.Lambda * (((1000:ℕ):ℝ) / 1000)) = 1 := by
    norm_num [negLambdaConfig]
  rw [harg]
  rw [if_neg (not_lt.mpr (by positivity))]
  have he : (2.7182818283 : ℝ) < Real.exp 1 := Real.exp_one_gt_d9
  nlinarith

theorem log_ratio_scenario :
    Real.log 0.0001 / Real.log (1 - (1 - 1 / ((1000:ℕ):ℝ)) ^ (1:ℕ)) = 4/3 := by
  have hterm : (1:ℝ) - (1 - 1 / ((1000:ℕ):ℝ)) ^ (1:ℕ) = 1/1000 := by norm_num
  rw [hterm]
  have l4 : Real.log 0.0001 = -(4 * Real.log 10) := by
    rw [(by norm_num : (0.0001:ℝ) = ((10:ℝ) ^ (4:ℕ))⁻¹), Real.log_inv, Real.log_pow]
    push_cast
    ring
  have l3 : Real.log (1/1000 : ℝ) = -(3 * Real.log 10) := by
    rw [(by norm_num : (1/1000:ℝ) = ((10:ℝ) ^ (3:ℕ))⁻¹), Real.log_inv, Real.log_pow]
    push_cast
    ring
  have h10 : 0 < Real.log 10 := Real.log_pos (by norm_num)
  rw [l4, l3, div_eq_iff (by intro h; rw [neg_eq_zero] at h; nlinarith)]
  ring

theorem calculateL_scenario : CalculateL 1000 1 lowProbability = 2 := by
  unfold CalculateL lowProbability
  dsimp only
  rw [log_ratio_scenario]
  have hceil : (⌈(4/3 : ℝ)⌉ : ℤ) = 2 := by
    rw [Int.ceil_eq_iff] <;> norm_num
  rw [hceil]
  rfl

theorem tunedConfig_scenario :
    GenerateTunedStructureConfig 1000 1000 25
      = { M := 1000
          L := 3
          Pi := 1/25
          Pd := 1/25000
          Lambda := 0.01
          RotationFrequencyMs := 300000
          IncludeStats := false
          FinalProbabilityFunction := MinFinalProbabilityFunction } := by
  unfold GenerateTunedStructureConfig
  dsimp only
  have hMbad : (⌈((1000:ℕ):ℝ) * percentBadClientFlows⌉).toNat = 1 := by
    norm_num [percentBadClientFlows]
  rw [hMbad, calculateL_scenario]
  norm_num [minL, pdSlowingFactor, defaultDecayRate, defaultRotationDurationMs]

/-- C5: the auto-tuner does NOT reject `tolerableBadRequestsPerBadFlow = 0`.
Evaluating the code at `(N, B, T) = (1000, 1000, 0)`: it silently substitutes
the default tolerance 25 and returns exactly the configuration produced for
`T = 25`, and that configuration passes `validateStructureConfig` (it is
usable), whereas the claim requires a ConfigInvalid error. -/
theorem c5_tuner_zero_tolerance_silently_falls_back :
    GenerateTunedStructureConfig 1000 1000 0
        = GenerateTunedStructureConfig 1000 1000 25
    ∧ ValidStructureConfig (GenerateTunedStructureConfig 1000 1000 0)
    ∧ (GenerateTunedStructureConfig 1000 1000 0).Pi = 1/25 := by
  refine ⟨rfl, ?_, ?_⟩
  · show ValidStructureConfig (GenerateTunedStructureConfig 1000 1000 25)
    rw [tunedConfig_scenario]
    refine ⟨?_, ?_, ?_, ?_, ?_, ?_, ?_⟩ <;> norm_num
  · show (GenerateTunedStructureConfig 1000 1000 25).Pi = 1/25
    rw [tunedConfig_scenario]

/-- C9: for every tuner input with `T >= 1` the generated configuration has
`M = B`, `L = max(ceil(log(1e-4) / log(1 - (1 - 1/B)^ceil(N*0.001))), 3)`,
`Pi = 1/T`, `Pd = 0.001 * Pi`, `Lambda = 0.01` and a 5-minute rotation
frequency; at `(N, B, T) = (1000, 1000, 25)` this gives
`L = 3, M = 1000, Pi = 0.04, Pd = 4e-5`. -/
theorem c9_tuner_derivation (N B T : ℕ) (hT : 1 ≤ T) :
    (GenerateTunedStructureConfig N B T).M = B
    ∧ (GenerateTunedStructureConfig N B T).L
        = max ((⌈Real.log 0.0001 / Real.log (1 - (1 - 1 / (B:ℝ))
              ^ ((⌈(N:ℝ) * 0.001⌉).toNat))⌉).toNat) 3
    ∧ (GenerateTunedStructureConfig N B T).Pi = 1 / (T:ℝ)
    ∧ (GenerateTunedStructureConfig N B T).Pd = 0.001 * (1 / (T:ℝ))
    ∧ (GenerateTunedStructureConfig N B T).Lambda = 0.01
    ∧ (GenerateTunedStructureConfig N B T).RotationFrequencyMs = 5 * 60 * 1000
    ∧ GenerateTunedStructureConfig 1000 1000 25
        = { M := 1000
            L := 3
            Pi := 1/25
            Pd := 1/25000
            Lambda := 0.01
            RotationFrequencyMs := 300000
            IncludeStats := false
            FinalProbabilityFunction := MinFinalProbabilityFunction } := by
  have hT0 : T ≠ 0 := by omega
  refine ⟨rfl, ?_, ?_, ?_, rfl, rfl, tunedConfig_scenario⟩
  · unfold GenerateTunedStructureConfig CalculateL percentBadClientFlows
      lowProbability minL
    dsimp only
    split_ifs <;> omega
  · unfold GenerateTunedStructureConfig
    dsimp only
    rw [if_neg hT0]
  · unfold GenerateTunedStructureConfig pdSlowingFactor
    dsimp only
    rw [if_neg hT0]

/-- Witness for C9 at the scenario inputs `(1000, 1000, 25)`. -/
theorem c9_tuner_derivation_witness :
    1 ≤ 25
    ∧ ((GenerateTunedStructureConfig 1000 1000 25).M = 1000
      ∧ (GenerateTunedStructureConfig 1000 1000 25).L
          = max ((⌈Real.log 0.0001 / Real.log (1 - (1 - 1 / ((1000:ℕ):ℝ))
                ^ ((⌈((1000:ℕ):ℝ) * 0.001⌉).toNat))⌉).toNat) 3
      ∧ (GenerateTunedStructureConfig 1000 1000 25).Pi = 1 / ((25:ℕ):ℝ)
      ∧ (GenerateTunedStructureConfig 1000 1000 25).Pd = 0.001 * (1 / ((25:ℕ):ℝ))
      ∧ (GenerateTunedStructureConfig 1000 1000 25).Lambda = 0.01
      ∧ (GenerateTunedStructureConfig 1000 1000 25).RotationFrequencyMs = 5 * 60 * 1000
      ∧ GenerateTunedStructureConfig 1000 1000 25
          = { M := 1000
              L := 3
              Pi := 1/25
              Pd := 1/25000
              Lambda := 0.01
              RotationFrequencyMs := 300000
              IncludeStats := false
              FinalProbabilityFunction := MinFinalProbabilityFunction }) :=
  ⟨by decide, c9_tuner_derivation 1000 1000 25 (by decide)⟩

end Fair
